import Mathlib

/-!
Shallow embedding of the CaptionGenerator backend (`src/main.py`).

Python strings are modelled as Lean `String` (a structure over `List Char`);
the character-level operations `strip`, `lower`, `startswith`, `lstrip(':')`
are modelled over `List Char`.  External collaborators (HTTP fetch, the BLIP
captioning pipeline, the Groq chat completion, the SQLite write) are modelled
as oracle values supplied to the orchestrator; the SQLite history table is a
list of records.
-/

namespace CaptionGen

/-- The apostrophe character (U+0027), used inside some prompt strings. -/
def apos : String := (Char.ofNat 39).toString

/-- Python `str.strip()` removes leading whitespace: model of the leading part. -/
def dropLead (l : List Char) : List Char := l.dropWhile Char.isWhitespace

/-- Python `str.strip()` removes trailing whitespace: model of the trailing part. -/
def dropTrail (l : List Char) : List Char := (l.reverse.dropWhile Char.isWhitespace).reverse

/-- Python `str.strip()`: remove leading and trailing whitespace. -/
def pyStrip (l : List Char) : List Char := dropTrail (dropLead l)

/-- Python `str.lower()` (ASCII fragment, enough for the filler-prefix set). -/
def pyLower (l : List Char) : List Char := l.map Char.toLower

/-- Test whether `pat` is an initial segment of `s`
(Python `s.startswith(pat)` at character level). -/
def leadMatch : List Char → List Char → Bool
  | [], _ => true
  | _ :: _, [] => false
  | p :: ps, c :: cs => p == c && leadMatch ps cs

/-- Python `s.startswith(pat)` on whole strings. -/
def pyStartsWith (s pat : String) : Bool := leadMatch pat.data s.data

/-- Line 185 of main.py: `prefixes_to_remove = ["Enhanced caption:", "Caption:", "Here's", "Here is"]`. -/
def prefixes_to_remove : List String :=
  ["Enhanced caption:", "Caption:", "Here" ++ apos ++ "s", "Here is"]

/-- The first filler in `prefixes_to_remove` that case-insensitively heads `s`
(the Python `for`/`break` loop at lines 186-189 stops at the first match). -/
def fillerMatch (s : List Char) : Option (List Char) :=
  (prefixes_to_remove.map String.data).find? (fun p => leadMatch (pyLower p) (pyLower s))

/-- Lines 186-189: if a filler heads the caption, drop it, `lstrip(':')`, `strip()`. -/
def stripOneFiller (s : List Char) : List Char :=
  match fillerMatch s with
  | some p => pyStrip ((s.drop p.length).dropWhile (fun c => c == ':'))
  | none => s

/-- Lines 192-193: if the caption still starts with `":"`, drop it and `strip()`. -/
def stripLeadColon (s : List Char) : List Char :=
  match s with
  | c :: rest => if c == ':' then pyStrip rest else c :: rest
  | [] => []

/-- Post-processing of the raw Groq output (lines 182-193):
`content.strip()`, then strip one filler, then strip one leading colon. -/
def postprocess (s : List Char) : List Char := stripLeadColon (stripOneFiller (pyStrip s))

/-- Version of `postprocess` on whole strings. -/
def postprocessS (s : String) : String := ⟨postprocess s.data⟩

/-- Python truthiness of `Optional[str]`: `None` and `""` are falsy. -/
def pyTruthy : Option String → Bool
  | none => false
  | some s => !(s == "")

/-- Lines 158-165: the fixed style-to-instruction map. -/
def style_prompts : List (String × String) :=
  [("creative", "Transform this basic image description into a creative, engaging caption that tells a story or evokes emotion:"),
   ("funny", "Turn this image description into a humorous, witty caption that would make people smile:"),
   ("poetic", "Convert this image description into a beautiful, poetic caption with literary flair:"),
   ("marketing", "Transform this image description into compelling marketing copy that would grab attention:"),
   ("social", "Turn this into a perfect social media caption with personality and engagement:"),
   ("artistic", "Elevate this description into an artistic, sophisticated caption that appreciates the visual elements:")]

/-- Line 169: the f-string prompt for the custom style. -/
def customPrompt (basic_caption custom_description : String) : String :=
  "Create a caption for this image based on the user" ++ apos ++ "s specific request.\n\nBasic image description: \"" ++ basic_caption ++ "\"\n\nUser" ++ apos ++ "s specific request: \"" ++ custom_description ++ "\"\n\nGuidelines:\n- Follow the user" ++ apos ++ "s specific style/tone request as closely as possible\n- Keep it concise and engaging (1-3 sentences)\n- Make it suitable for social media (Instagram, Facebook, Twitter, YouTube thumbnails, etc.)\n- Add relevant emojis to enhance the caption\n- If the user" ++ apos ++ "s request is unclear, default to a creative engaging style\n- Don" ++ apos ++ "t just describe the image, create content that matches their request\n\nCaption:"

/-- Line 173: the f-string prompt for preset styles, around a chosen base template. -/
def presetPrompt (base_prompt basic_caption : String) : String :=
  base_prompt ++ "\n\nBasic description: \"" ++ basic_caption ++ "\"\n\nGuidelines:\n- Keep it concise (1-2 sentences)\n- Make it engaging and memorable\n- Don" ++ apos ++ "t just describe, add personality\n- Avoid overly dramatic language\n- Make it suitable for social media including instagram, facebook, twitter, youtube thumbnails, etc.\n- Also add emojis to the caption\n\nEnhanced caption:"

/-- Line 172: `style_prompts.get(style, style_prompts["creative"])`. -/
def lookupStylePrompt (style : String) : String :=
  match style_prompts.find? (fun p => p.1 == style) with
  | some p => p.2
  | none => "Transform this basic image description into a creative, engaging caption that tells a story or evokes emotion:"

/-- Lines 167-173: which prompt the enhancement step sends to Groq. -/
def buildPrompt (basic_caption style : String) (custom_description : Option String) : String :=
  if style == "custom" && pyTruthy custom_description then
    customPrompt basic_caption (match custom_description with | some d => d | none => "")
  else
    presetPrompt (lookupStylePrompt style) basic_caption

/-- Lines 154-199, `enhance_caption_with_groq`: the Groq chat call is the oracle
`groq`, mapping the prompt to either the raw completion text or a failure.
On failure the `except` branch returns `basic_caption` unchanged; on success
the raw text is post-processed. -/
def enhance_caption_with_groq (basic_caption style : String)
    (custom_description : Option String) (groq : String → Except Unit String) : String :=
  match groq (buildPrompt basic_caption style custom_description) with
  | .error _ => basic_caption
  | .ok content => postprocessS content

/-! ## History store (`caption_history` table) -/

/-- One row of the `caption_history` table (schema at lines 52-63). -/
structure CaptionRecord where
  id : Nat
  user_id : String
  image_url : String
  basic_caption : String
  enhanced_caption : String
  style : String
  custom_description : Option String
  created_at : Nat
deriving DecidableEq, Repr

/-- SQLite `INTEGER PRIMARY KEY AUTOINCREMENT`: the next id is one more than
the largest id present. -/
def nextId (store : List CaptionRecord) : Nat :=
  (store.map (fun r => r.id)).foldr Nat.max 0 + 1

/-- Lines 121-133, `save_to_history`: INSERT a row; any storage exception is
caught and only logged, so on `insertOk = false` the store is unchanged and
no error propagates. `now` is the `CURRENT_TIMESTAMP` default. -/
def save_to_history (insertOk : Bool) (now : Nat) (store : List CaptionRecord)
    (user_id image_url basic_caption enhanced_caption style : String)
    (custom_description : Option String) : List CaptionRecord :=
  if insertOk then
    store ++ [⟨nextId store, user_id, image_url, basic_caption, enhanced_caption,
              style, custom_description, now⟩]
  else store

/-- Descending `created_at` order used by the history listing (`ORDER BY created_at DESC`). -/
def createdDesc (a b : CaptionRecord) : Prop := b.created_at ≤ a.created_at

instance : DecidableRel createdDesc := fun a b => Nat.decLe b.created_at a.created_at

instance : IsTotal CaptionRecord createdDesc :=
  ⟨fun a b => Nat.le_total b.created_at a.created_at⟩

instance : IsTrans CaptionRecord createdDesc :=
  ⟨fun _ _ _ hab hbc => Nat.le_trans hbc hab⟩

/-- Lines 135-152, `get_user_history`: `SELECT ... WHERE user_id = ? ORDER BY
created_at DESC LIMIT ?`; any exception (store fault) yields `[]`. -/
def get_user_history (fault : Bool) (store : List CaptionRecord)
    (user_id : String) (limit : Nat) : List CaptionRecord :=
  if fault then []
  else (List.insertionSort createdDesc
          (store.filter (fun r => r.user_id == user_id))).take limit

/-- Outcome of `DELETE /user/history/{id}` (404 / 403 / 200). -/
inductive DeleteResult where
  | notFound
  | forbidden
  | success
deriving DecidableEq, Repr

/-- Lines 313-337, `delete_history_item`: `SELECT user_id WHERE id = ?` picks
the first row with that id; absent row gives 404, foreign owner 403, and
otherwise `DELETE WHERE id = ? AND user_id = ?` removes the matching rows. -/
def delete_history_item (store : List CaptionRecord) (history_id : Nat)
    (user_id : String) : DeleteResult × List CaptionRecord :=
  match store.find? (fun r => r.id == history_id) with
  | none => (.notFound, store)
  | some r =>
    if !(r.user_id == user_id) then (.forbidden, store)
    else (.success, store.filter (fun x => !(x.id == history_id && x.user_id == user_id)))

/-! ## Upload signature (`/generate-signature`, lines 209-248) -/

/-- The three Cloudinary environment variables; `none` models an unset
variable, and Python truthiness also treats `some ""` as missing. -/
structure CloudinaryEnv where
  api_secret : Option String
  api_key : Option String
  cloud_name : Option String

/-- Python string `<` (lexicographic by code point), at character level. -/
def strLtB : List Char → List Char → Bool
  | [], [] => false
  | [], _ :: _ => true
  | _ :: _, [] => false
  | a :: as, b :: bs =>
    if a.toNat < b.toNat then true
    else if b.toNat < a.toNat then false
    else strLtB as bs

/-- Key order used by Python `sorted` on `(key, value)` pairs with distinct keys. -/
def keyLe (a b : String × String) : Bool :=
  strLtB a.1.data b.1.data || a.1 == b.1

/-- Insert into a key-sorted association list. -/
def insertByKey (x : String × String) : List (String × String) → List (String × String)
  | [] => [x]
  | y :: ys => if keyLe x y then x :: y :: ys else y :: insertByKey x ys

/-- Python `sorted(params_to_sign.items())` (insertion sort; keys are distinct). -/
def pySorted : List (String × String) → List (String × String)
  | [] => []
  | x :: xs => insertByKey x (pySorted xs)

/-- Python ampersand-join of the parameter strings. -/
def joinAmp : List String → String
  | [] => ""
  | [x] => x
  | x :: y :: xs => x ++ "&" ++ joinAmp (y :: xs)

/-- Response of `/generate-signature`: either the signed payload or the
500 error JSON. -/
inductive SigResponse where
  | ok (timestamp : Nat) (signature : String) (api_key cloud_name folder : String)
  | err500 (error : String)
deriving DecidableEq, Repr

/-- Lines 209-248, `generate_signature`: `digest` models
`hashlib.sha256(...).hexdigest()` (an external fixed function), `timestamp`
models `int(time.time())`.  Missing (falsy) credentials yield the 500 error;
otherwise the sorted `key=value` parameter string is concatenated with the
secret and digested. -/
def generate_signature (digest : String → String) (env : CloudinaryEnv)
    (timestamp : Nat) : SigResponse :=
  if !(pyTruthy env.api_secret && pyTruthy env.api_key && pyTruthy env.cloud_name) then
    .err500 "Missing Cloudinary credentials in environment variables."
  else
    let api_secret := (match env.api_secret with | some s => s | none => "")
    let api_key := (match env.api_key with | some s => s | none => "")
    let cloud_name := (match env.cloud_name with | some s => s | none => "")
    let params_to_sign : List (String × String) :=
      [("folder", "uploads"), ("timestamp", toString timestamp)]
    let sorted_params := pySorted params_to_sign
    let params_string := joinAmp (sorted_params.map (fun p => p.1 ++ "=" ++ p.2))
    let string_to_sign := params_string ++ api_secret
    .ok timestamp (digest string_to_sign) api_key cloud_name "uploads"

/-! ## Caption orchestrator (`POST /generate-caption`, lines 250-298) -/

/-- The request body (`CaptionRequest` pydantic model, lines 91-94). -/
structure CaptionRequest where
  image_url : String
  style : String := "creative"
  custom_description : Option String := none

/-- Results of the external collaborators for one request:
`fetchOk` is `requests.get` + `raise_for_status` succeeding, `decodeOk` is
`Image.open(...).convert("RGB")` succeeding, `inference` is the BLIP
pipeline's `generated_text` (or a raised error), `groq` is the chat
completion (or a raised error), `insertOk` is the SQLite INSERT succeeding. -/
structure Collab where
  fetchOk : Bool
  decodeOk : Bool
  inference : Except Unit String
  groq : String → Except Unit String
  insertOk : Bool

/-- Error responses the endpoint can produce. -/
inductive GenError where
  | invalidInput (detail : String)
  | serverError (detail : String)
deriving DecidableEq, Repr

/-- The JSON body returned on success (lines 279-291); `custom_description`
is `none` when the key is omitted from the response. -/
structure GenResponse where
  success : Bool
  image_url : String
  basic_caption : String
  enhanced_caption : String
  style : String
  custom_description : Option String
deriving DecidableEq, Repr

/-- External calls the handler can attempt, in order. -/
inductive ExtCall where
  | fetchImage
  | inferCaption
  | enhanceCaption
  | storeWrite
deriving DecidableEq, Repr

/-- Result of one `generate_caption` request: the HTTP-level outcome, the
store after the request, and the external calls attempted (in order). -/
structure GenOutcome where
  result : Except GenError GenResponse
  store : List CaptionRecord
  calls : List ExtCall
deriving Repr

/-- Python `not custom_description or not custom_description.strip()`
(line 262): `None`, `""` and whitespace-only all count as blank. -/
def blankCustom : Option String → Bool
  | none => true
  | some d => (pyStrip d.data).isEmpty

/-- Lines 250-298, `generate_caption`: validation, fetch, decode, BLIP
inference, Groq enhancement (with its internal fallback), best-effort
history write, response assembly.  Fetch/decode/inference failures raise and
are caught by the outer handler as a 500; validation failures raise
`HTTPException(400)` before any external call. -/
def generate_caption (req : CaptionRequest) (user_id : String) (c : Collab)
    (now : Nat) (store : List CaptionRecord) : GenOutcome :=
  if req.image_url == "" || !(pyStartsWith req.image_url "http") then
    ⟨.error (.invalidInput "Invalid image URL"), store, []⟩
  else if req.style == "custom" && blankCustom req.custom_description then
    ⟨.error (.invalidInput "Custom description is required when using custom style"), store, []⟩
  else if !c.fetchOk then
    ⟨.error (.serverError "Failed to generate caption"), store, [.fetchImage]⟩
  else if !c.decodeOk then
    ⟨.error (.serverError "Failed to generate caption"), store, [.fetchImage]⟩
  else
    match c.inference with
    | .error _ => ⟨.error (.serverError "Failed to generate caption"), store,
                   [.fetchImage, .inferCaption]⟩
    | .ok basic_caption =>
      let enhanced_caption :=
        enhance_caption_with_groq basic_caption req.style req.custom_description c.groq
      let store' := save_to_history c.insertOk now store user_id req.image_url
        basic_caption enhanced_caption req.style req.custom_description
      let response_data : GenResponse :=
        { success := true
          image_url := req.image_url
          basic_caption := basic_caption
          enhanced_caption := enhanced_caption
          style := req.style
          custom_description :=
            if req.style == "custom" && pyTruthy req.custom_description then
              req.custom_description
            else none }
      ⟨.ok response_data, store', [.fetchImage, .inferCaption, .enhanceCaption, .storeWrite]⟩

/-- Spec-side notion (§4.1 / §8): `imageUrl` begins with an HTTP(S) scheme.
This is the spec's words, for comparison with the code's literal
`startswith("http")` check; schemes are case-insensitive. -/
def beginsWithHttpScheme (s : String) : Bool :=
  leadMatch (pyLower "http://".data) (pyLower s.data) ||
  leadMatch (pyLower "https://".data) (pyLower s.data)

/-! ## Lemmas about stripping -/

theorem dropWhile_dropWhile_eq (p : Char → Bool) (l : List Char) :
    List.dropWhile p (List.dropWhile p l) = List.dropWhile p l := by
  induction l with
  | nil => rfl
  | cons c cs ih =>
    by_cases h : p c = true
    · simp [List.dropWhile, h, ih]
    · simp [List.dropWhile, h]

theorem exists_append_dropWhile (p : Char → Bool) (l : List Char) :
    ∃ v, v ++ List.dropWhile p l = l := by
  induction l with
  | nil => exact ⟨[], rfl⟩
  | cons c cs ih =>
    by_cases h : p c = true
    · obtain ⟨v, hv⟩ := ih
      exact ⟨c :: v, by simp [List.dropWhile, h, hv]⟩
    · exact ⟨[], by simp [List.dropWhile, h]⟩

theorem dropWhile_length_le (p : Char → Bool) (l : List Char) :
    (List.dropWhile p l).length ≤ l.length := by
  induction l with
  | nil => simp
  | cons c cs ih =>
    by_cases h : p c = true
    · rw [List.dropWhile_cons_of_pos h]
      exact Nat.le_trans ih (by simp)
    · rw [List.dropWhile_cons_of_neg (by simpa using h)]

theorem dropWhile_eq_self_append (p : Char → Bool) (w u : List Char)
    (h : List.dropWhile p (w ++ u) = w ++ u) : List.dropWhile p w = w := by
  cases w with
  | nil => rfl
  | cons c cs =>
    have hc : p c = false := by
      by_cases hpc : p c = true
      · exfalso
        rw [List.cons_append, List.dropWhile_cons_of_pos hpc] at h
        have hlen := congrArg List.length h
        have hle := dropWhile_length_le p (cs ++ u)
        simp [List.length_append] at hlen hle
        omega
      · simpa using hpc
    simp [List.dropWhile, hc]

theorem exists_append_dropTrail (l : List Char) : ∃ u, dropTrail l ++ u = l := by
  obtain ⟨v, hv⟩ := exists_append_dropWhile Char.isWhitespace l.reverse
  refine ⟨v.reverse, ?_⟩
  have := congrArg List.reverse hv
  simpa [dropTrail, List.reverse_append] using this

theorem dropTrail_dropTrail (l : List Char) : dropTrail (dropTrail l) = dropTrail l := by
  simp [dropTrail, dropWhile_dropWhile_eq]

theorem dropLead_dropTrail_of_dropLead (l : List Char) (h : dropLead l = l) :
    dropLead (dropTrail l) = dropTrail l := by
  obtain ⟨u, hu⟩ := exists_append_dropTrail l
  have : List.dropWhile Char.isWhitespace (dropTrail l ++ u) = dropTrail l ++ u := by
    rw [hu]; exact h
  exact dropWhile_eq_self_append Char.isWhitespace (dropTrail l) u this

theorem pyStrip_idem (l : List Char) : pyStrip (pyStrip l) = pyStrip l := by
  unfold pyStrip
  rw [dropLead_dropTrail_of_dropLead (dropLead l) (dropWhile_dropWhile_eq _ l),
      dropTrail_dropTrail]

theorem stripLeadColon_pyStrip (X : List Char) :
    ∃ t, stripLeadColon (pyStrip X) = pyStrip t := by
  cases hc : pyStrip X with
  | nil => exact ⟨[], rfl⟩
  | cons c rest =>
    by_cases h : c = ':'
    · exact ⟨rest, by simp [stripLeadColon, h]⟩
    · refine ⟨X, ?_⟩
      rw [hc]
      simp [stripLeadColon, h]

theorem exists_pyStrip_postprocess (s : List Char) : ∃ t, postprocess s = pyStrip t := by
  unfold postprocess stripOneFiller
  cases hf : fillerMatch (pyStrip s) with
  | some p =>
    exact stripLeadColon_pyStrip (((pyStrip s).drop p.length).dropWhile (fun c => c == ':'))
  | none => exact stripLeadColon_pyStrip s

theorem pyStrip_postprocess (s : List Char) : pyStrip (postprocess s) = postprocess s := by
  obtain ⟨t, ht⟩ := exists_pyStrip_postprocess s
  rw [ht, pyStrip_idem]

/-- Claim C7 (counterexample): post-processing is not idempotent.  On `"::a"`
one application yields `":a"` (only one leading colon is stripped), a second
application strips the remaining colon and yields `"a"`. -/
theorem postprocess_not_idempotent :
    postprocess (postprocess ("::a".data)) ≠ postprocess ("::a".data) := by
  decide

/-- Claim C7 (amended): post-processing is idempotent on every string whose
once-processed output does not itself begin, case-insensitively, with one of
the filler prefixes and does not begin with a colon; a second application can
strip further otherwise. -/
theorem postprocess_idem_of_settled (s : List Char)
    (h1 : fillerMatch (postprocess s) = none)
    (h2 : (postprocess s).head? ≠ some ':') :
    postprocess (postprocess s) = postprocess s := by
  show stripLeadColon (stripOneFiller (pyStrip (postprocess s))) = postprocess s
  rw [pyStrip_postprocess]
  rw [stripOneFiller, h1]
  cases hp : postprocess s with
  | nil => rfl
  | cons c rest =>
    rw [hp] at h2
    have hc : (c == ':') = false := by
      simp only [List.head?] at h2
      simpa using fun hcc => h2 (by rw [hcc])
    simp [stripLeadColon, hc]

/-- Closed instance of `postprocess_idem_of_settled` at the string
`"Enhanced caption: a dog"`. -/
theorem postprocess_idem_witness :
    postprocess (postprocess ("Enhanced caption: a dog".data)) =
      postprocess ("Enhanced caption: a dog".data) :=
  postprocess_idem_of_settled ("Enhanced caption: a dog".data) (by decide) (by decide)

/-! ## History-store theorems -/

theorem find?_id_of_mem (store : List CaptionRecord) (hid : Nat)
    (huniq : (store.map (fun r => r.id)).Nodup) (r : CaptionRecord)
    (hr : r ∈ store) (hrid : r.id = hid) :
    store.find? (fun x => x.id == hid) = some r := by
  have hs : (store.find? (fun x => x.id == hid)).isSome = true := by
    rw [List.find?_isSome]
    exact ⟨r, hr, by simp [hrid]⟩
  obtain ⟨x, hx⟩ := Option.isSome_iff_exists.mp hs
  have hxm := List.mem_of_find?_eq_some hx
  have hxp : x.id = hid := by simpa using List.find?_some hx
  have hxr : x = r := List.inj_on_of_nodup_map huniq hxm hr (by rw [hxp, hrid])
  rw [hx, hxr]

/-- Claim C2: `DELETE /user/history/{id}` returns 404 when no row has the
requested id; returns 403 and leaves the store unchanged when the row exists
but belongs to another user; and otherwise deletes exactly the row with that
id and returns success.  `huniq` is the store invariant that SQLite's
`INTEGER PRIMARY KEY` ids are unique. -/
theorem delete_history_item_spec (store : List CaptionRecord) (hid : Nat) (uid : String)
    (huniq : (store.map (fun r => r.id)).Nodup) :
    ((∀ r ∈ store, r.id ≠ hid) →
      delete_history_item store hid uid = (.notFound, store)) ∧
    (∀ r ∈ store, r.id = hid → r.user_id ≠ uid →
      delete_history_item store hid uid = (.forbidden, store)) ∧
    (∀ r ∈ store, r.id = hid → r.user_id = uid →
      delete_history_item store hid uid =
        (.success, store.filter (fun x => !(x.id == hid)))) := by
  refine ⟨?_, ?_, ?_⟩
  · intro h
    have hnone : store.find? (fun x => x.id == hid) = none := by
      rw [List.find?_eq_none]
      intro x hx
      simpa using h x hx
    simp [delete_history_item, hnone]
  · intro r hr hrid hru
    have hsome := find?_id_of_mem store hid huniq r hr hrid
    simp [delete_history_item, hsome, hru]
  · intro r hr hrid hru
    have hsome := find?_id_of_mem store hid huniq r hr hrid
    have hfc : store.filter (fun x => !(x.id == hid && x.user_id == uid)) =
        store.filter (fun x => !(x.id == hid)) := by
      apply List.filter_congr
      intro x hx
      by_cases hxid : x.id = hid
      · have hxr : x = r := List.inj_on_of_nodup_map huniq hx hr (by rw [hxid, hrid])
        simp [hxid, hxr, hru]
      · simp [hxid]
    simp only [delete_history_item, hsome]
    rw [show (!(r.user_id == uid)) = false by simp [hru]]
    simp only [Bool.false_eq_true, if_false]
    rw [hfc]

/-- Closed instance of `delete_history_item_spec`: owner deletion succeeds
and removes the row. -/
theorem delete_history_item_spec_witness :
    delete_history_item [⟨1, "u", "i", "b", "e", "creative", none, 0⟩] 1 "u" =
      (.success, []) := by
  have h := (delete_history_item_spec [⟨1, "u", "i", "b", "e", "creative", none, 0⟩]
    1 "u" (by decide)).2.2 ⟨1, "u", "i", "b", "e", "creative", none, 0⟩
    (by simp) rfl rfl
  simpa using h

/-- Claim C3: the history listing returns at most `limit` rows, only rows of
the requested user, in descending `created_at` order, and returns `[]` (not
an error) both when the user has no rows and when the store faults. -/
theorem get_user_history_spec (fault : Bool) (store : List CaptionRecord)
    (uid : String) (limit : Nat) :
    (get_user_history fault store uid limit).length ≤ limit ∧
    (∀ r ∈ get_user_history fault store uid limit, r.user_id = uid) ∧
    List.Pairwise createdDesc (get_user_history fault store uid limit) ∧
    (fault = true → get_user_history fault store uid limit = []) ∧
    (store.filter (fun r => r.user_id == uid) = [] →
      get_user_history fault store uid limit = []) := by
  cases fault with
  | true => simp [get_user_history]
  | false =>
    refine ⟨?_, ?_, ?_, by simp, ?_⟩
    · simp only [get_user_history, Bool.false_eq_true, if_false]
      exact List.length_take_le limit
        (List.insertionSort createdDesc (store.filter (fun r => r.user_id == uid)))
    · intro r hr
      simp only [get_user_history, Bool.false_eq_true, if_false] at hr
      have h1 := List.mem_of_mem_take hr
      have h2 := (List.perm_insertionSort createdDesc _).mem_iff.mp h1
      have h3 := (List.mem_filter.mp h2).2
      simpa using h3
    · have hs := List.sorted_insertionSort createdDesc
        (store.filter (fun r => r.user_id == uid))
      have ht := List.Pairwise.sublist
        (List.take_sublist limit
          (List.insertionSort createdDesc (store.filter (fun r => r.user_id == uid)))) hs
      simpa [get_user_history] using ht
    · intro h
      simp [get_user_history, h]

/-- Closed instance of `get_user_history_spec`: with two rows of user `u`
and a limit of 1, at most one row comes back. -/
theorem get_user_history_spec_witness :
    (get_user_history false
      [⟨1, "u", "i", "b", "e", "creative", none, 5⟩,
       ⟨2, "u", "i", "b", "e", "funny", none, 9⟩] "u" 1).length ≤ 1 :=
  (get_user_history_spec false
    [⟨1, "u", "i", "b", "e", "creative", none, 5⟩,
     ⟨2, "u", "i", "b", "e", "funny", none, 9⟩] "u" 1).1

/-! ## Orchestrator theorems -/

/-- Claim C1: when the Groq enhancement call fails, the enhanced caption is
the basic caption returned verbatim, with no post-processing applied, and the
generate-caption operation still succeeds with that caption in its response. -/
theorem enhance_fallback_spec :
    (∀ (basic style : String) (cd : Option String) (g : String → Except Unit String),
      g (buildPrompt basic style cd) = .error () →
      enhance_caption_with_groq basic style cd g = basic) ∧
    (∀ (req : CaptionRequest) (uid : String) (c : Collab) (now : Nat)
      (store : List CaptionRecord) (basic : String),
      (req.image_url == "" || !(pyStartsWith req.image_url "http")) = false →
      (req.style == "custom" && blankCustom req.custom_description) = false →
      c.fetchOk = true → c.decodeOk = true → c.inference = .ok basic →
      c.groq (buildPrompt basic req.style req.custom_description) = .error () →
      ∃ resp, (generate_caption req uid c now store).result = .ok resp ∧
        resp.success = true ∧ resp.basic_caption = basic ∧
        resp.enhanced_caption = basic) := by
  constructor
  · intro basic style cd g hg
    simp [enhance_caption_with_groq, hg]
  · intro req uid c now store basic hurl hcd hf hd hi hg
    have hres : (generate_caption req uid c now store).result =
        .ok { success := true, image_url := req.image_url, basic_caption := basic,
              enhanced_caption :=
                enhance_caption_with_groq basic req.style req.custom_description c.groq,
              style := req.style,
              custom_description :=
                if req.style == "custom" && pyTruthy req.custom_description then
                  req.custom_description
                else none } := by
      simp [generate_caption, hurl, hcd, hf, hd, hi]
    rw [hres]
    exact ⟨_, rfl, rfl, rfl, by simp [enhance_caption_with_groq, hg]⟩

/-- Closed instance of `enhance_fallback_spec`: failing enhancement returns
the basic caption unchanged. -/
theorem enhance_fallback_spec_witness :
    enhance_caption_with_groq "a cat" "funny" none (fun _ => .error ()) = "a cat" :=
  enhance_fallback_spec.1 "a cat" "funny" none (fun _ => .error ()) rfl

/-- Claim C4 (counterexample): `"httpx://e"` does not begin with an HTTP(S)
scheme, yet `generate_caption` does not fail fast with `InvalidInput`: the
literal `startswith("http")` check passes and every external call is
attempted. -/
theorem invalid_url_claim_counterexample :
    ("httpx://e" : String) ≠ "" ∧
    beginsWithHttpScheme "httpx://e" = false ∧
    (generate_caption ⟨"httpx://e", "creative", none⟩ "u"
        ⟨true, true, .ok "a cat", fun _ => .error (), true⟩ 0 []).calls =
      [.fetchImage, .inferCaption, .enhanceCaption, .storeWrite] := by
  refine ⟨by decide, by decide, ?_⟩
  rfl

/-- Claim C4 (amended): for every `imageUrl` that is empty or does not begin
with the literal, case-sensitive prefix `"http"`, `generate_caption` fails
with `InvalidInput` (400) before any external call and leaves the store
unchanged.  (URLs such as `"httpx://e"` pass the code's check even though
they carry no HTTP(S) scheme.) -/
theorem invalid_url_fails_fast (req : CaptionRequest) (uid : String) (c : Collab)
    (now : Nat) (store : List CaptionRecord)
    (h : req.image_url = "" ∨ pyStartsWith req.image_url "http" = false) :
    generate_caption req uid c now store =
      ⟨.error (.invalidInput "Invalid image URL"), store, []⟩ := by
  have hcond : (req.image_url == "" || !(pyStartsWith req.image_url "http")) = true := by
    rcases h with h | h
    · simp [h]
    · simp [h]
  simp [generate_caption, hcond]

/-- Closed instance of `invalid_url_fails_fast` at a non-HTTP URL. -/
theorem invalid_url_fails_fast_witness :
    generate_caption ⟨"ftp://e", "creative", none⟩ "u"
        ⟨true, true, .ok "a cat", fun _ => .error (), true⟩ 0 [] =
      ⟨.error (.invalidInput "Invalid image URL"), [], []⟩ :=
  invalid_url_fails_fast ⟨"ftp://e", "creative", none⟩ "u"
    ⟨true, true, .ok "a cat", fun _ => .error (), true⟩ 0 []
    (Or.inr (by decide))

/-- Claim C5: a failed image fetch, an undecodable image, or a failed BLIP
inference fails the whole request with the generic 500 error, and nothing is
written to the history store. -/
theorem fetch_inference_failure_aborts (req : CaptionRequest) (uid : String)
    (c : Collab) (now : Nat) (store : List CaptionRecord)
    (hurl : (req.image_url == "" || !(pyStartsWith req.image_url "http")) = false)
    (hcd : (req.style == "custom" && blankCustom req.custom_description) = false)
    (hfail : c.fetchOk = false ∨ c.decodeOk = false ∨ c.inference = .error ()) :
    (generate_caption req uid c now store).result =
      .error (.serverError "Failed to generate caption") ∧
    (generate_caption req uid c now store).store = store := by
  rcases hfail with hf | hd | hi
  · constructor <;> simp [generate_caption, hurl, hcd, hf]
  · cases hF : c.fetchOk
    · constructor <;> simp [generate_caption, hurl, hcd, hF]
    · constructor <;> simp [generate_caption, hurl, hcd, hF, hd]
  · cases hF : c.fetchOk
    · constructor <;> simp [generate_caption, hurl, hcd, hF]
    · cases hD : c.decodeOk
      · constructor <;> simp [generate_caption, hurl, hcd, hF, hD]
      · constructor <;> simp [generate_caption, hurl, hcd, hF, hD, hi]

/-- Closed instance of `fetch_inference_failure_aborts`: a dead fetch gives
the 500 error and an unchanged (empty) store. -/
theorem fetch_inference_failure_aborts_witness :
    (generate_caption ⟨"http://e", "creative", none⟩ "u"
        ⟨false, true, .ok "a cat", fun _ => .error (), true⟩ 0 []).result =
      .error (.serverError "Failed to generate caption") ∧
    (generate_caption ⟨"http://e", "creative", none⟩ "u"
        ⟨false, true, .ok "a cat", fun _ => .error (), true⟩ 0 []).store = [] :=
  fetch_inference_failure_aborts ⟨"http://e", "creative", none⟩ "u"
    ⟨false, true, .ok "a cat", fun _ => .error (), true⟩ 0 []
    (by decide) (by decide) (Or.inl rfl)

/-- Claim C6: a failed history INSERT never changes the caller-visible
result, and on an otherwise successful generation the caller still gets the
full success response while the store is left unchanged. -/
theorem storage_fault_invisible_to_caller (req : CaptionRequest) (uid : String)
    (c : Collab) (now : Nat) (store : List CaptionRecord) :
    ((generate_caption req uid { c with insertOk := false } now store).result =
      (generate_caption req uid { c with insertOk := true } now store).result) ∧
    (∀ basic : String,
      (req.image_url == "" || !(pyStartsWith req.image_url "http")) = false →
      (req.style == "custom" && blankCustom req.custom_description) = false →
      c.fetchOk = true → c.decodeOk = true → c.inference = .ok basic →
      (generate_caption req uid { c with insertOk := false } now store).result =
        .ok { success := true, image_url := req.image_url, basic_caption := basic,
              enhanced_caption :=
                enhance_caption_with_groq basic req.style req.custom_description c.groq,
              style := req.style,
              custom_description :=
                if req.style == "custom" && pyTruthy req.custom_description then
                  req.custom_description
                else none } ∧
      (generate_caption req uid { c with insertOk := false } now store).store = store) := by
  constructor
  · by_cases hu : (req.image_url == "" || !(pyStartsWith req.image_url "http")) = true
    · simp [generate_caption, hu]
    · have hu' : (req.image_url == "" || !(pyStartsWith req.image_url "http")) = false := by
        simpa using hu
      by_cases hc2 : (req.style == "custom" && blankCustom req.custom_description) = true
      · simp [generate_caption, hu', hc2]
      · have hc2' : (req.style == "custom" && blankCustom req.custom_description) = false := by
          simpa using hc2
        cases hF : c.fetchOk
        · simp [generate_caption, hu', hc2', hF]
        · cases hD : c.decodeOk
          · simp [generate_caption, hu', hc2', hF, hD]
          · cases hi : c.inference
            · simp [generate_caption, hu', hc2', hF, hD, hi]
            · simp [generate_caption, hu', hc2', hF, hD, hi]
  · intro basic hurl hcd hf hd hi
    constructor
    · simp [generate_caption, hurl, hcd, hf, hd, hi]
    · simp [generate_caption, hurl, hcd, hf, hd, hi, save_to_history]

/-- Closed instance of `storage_fault_invisible_to_caller`: with the INSERT
failing, the caller still receives the full success response and no row is
stored. -/
theorem storage_fault_invisible_witness :
    (generate_caption ⟨"http://e", "creative", none⟩ "u"
        ⟨true, true, .ok "a cat", fun _ => .ok "nice", false⟩ 0 []).result =
      .ok { success := true, image_url := "http://e", basic_caption := "a cat",
            enhanced_caption :=
              enhance_caption_with_groq "a cat" "creative" none (fun _ => .ok "nice"),
            style := "creative", custom_description := none } ∧
    (generate_caption ⟨"http://e", "creative", none⟩ "u"
        ⟨true, true, .ok "a cat", fun _ => .ok "nice", false⟩ 0 []).store = [] := by
  have h := (storage_fault_invisible_to_caller ⟨"http://e", "creative", none⟩ "u"
    ⟨true, true, .ok "a cat", fun _ => .ok "nice", true⟩ 0 []).2 "a cat"
    (by decide) (by decide) rfl rfl rfl
  simpa using h

/-- Claim C8 (counterexample): a request with the preset style `"creative"`
and a supplied `custom_description` persists a record whose style is not the
custom marker but whose `custom_description` is stored anyway —
`save_to_history` receives the description unconditionally (line 277). -/
theorem custom_description_stored_for_preset_style :
    (generate_caption ⟨"http://e", "creative", some "keep this"⟩ "u"
        ⟨true, true, .ok "a cat", fun _ => .ok "nice", true⟩ 7 []).store =
      [⟨1, "u", "http://e", "a cat", "nice", "creative", some "keep this", 7⟩] := by
  decide

/-- Claim C8 (amended): the persisted record stores the request's
`custom_description` verbatim whatever the style; it is only the HTTP
response that carries `custom_description` solely when the style is the
custom marker and a description was supplied. -/
theorem stored_custom_description_spec (req : CaptionRequest) (uid : String)
    (c : Collab) (now : Nat) (store : List CaptionRecord) (basic : String)
    (hurl : (req.image_url == "" || !(pyStartsWith req.image_url "http")) = false)
    (hcd : (req.style == "custom" && blankCustom req.custom_description) = false)
    (hf : c.fetchOk = true) (hd : c.decodeOk = true) (hi : c.inference = .ok basic)
    (hins : c.insertOk = true) :
    (generate_caption req uid c now store).store =
      store ++ [⟨nextId store, uid, req.image_url, basic,
        enhance_caption_with_groq basic req.style req.custom_description c.groq,
        req.style, req.custom_description, now⟩] ∧
    (∀ resp, (generate_caption req uid c now store).result = .ok resp →
      resp.custom_description =
        if req.style == "custom" && pyTruthy req.custom_description then
          req.custom_description
        else none) := by
  constructor
  · simp [generate_caption, hurl, hcd, hf, hd, hi, save_to_history, hins]
  · intro resp hresp
    have hres : (generate_caption req uid c now store).result =
        .ok { success := true, image_url := req.image_url, basic_caption := basic,
              enhanced_caption :=
                enhance_caption_with_groq basic req.style req.custom_description c.groq,
              style := req.style,
              custom_description :=
                if req.style == "custom" && pyTruthy req.custom_description then
                  req.custom_description
                else none } := by
      simp [generate_caption, hurl, hcd, hf, hd, hi]
    rw [hres] at hresp
    rw [← Except.ok.inj hresp]

/-- Closed instance of `stored_custom_description_spec`: the stored row keeps
the description even for the preset style `"creative"`. -/
theorem stored_custom_description_spec_witness :
    (generate_caption ⟨"http://e", "creative", some "keep"⟩ "u"
        ⟨true, true, .ok "a cat", fun _ => .ok "nice", true⟩ 7 []).store =
      [⟨1, "u", "http://e", "a cat",
        enhance_caption_with_groq "a cat" "creative" (some "keep") (fun _ => .ok "nice"),
        "creative", some "keep", 7⟩] := by
  have h := (stored_custom_description_spec ⟨"http://e", "creative", some "keep"⟩ "u"
    ⟨true, true, .ok "a cat", fun _ => .ok "nice", true⟩ 7 [] "a cat"
    (by decide) (by decide) rfl rfl rfl rfl).1
  simpa [nextId] using h

/-- Claim C9: the upload-signature endpoint is a pure function of the digest,
the credentials and the timestamp: with all three credentials present the
signature is exactly the digest of the alphabetically-sorted `key=value`
parameter string concatenated with the secret; with any credential missing
(or empty) it fails closed with the 500 error and no signature. -/
theorem generate_signature_spec :
    (∀ (digest : String → String) (sec key cn : String) (t : Nat),
      sec ≠ "" → key ≠ "" → cn ≠ "" →
      generate_signature digest ⟨some sec, some key, some cn⟩ t =
        .ok t (digest ("folder=uploads&timestamp=" ++ toString t ++ sec))
          key cn "uploads") ∧
    (∀ (digest : String → String) (env : CloudinaryEnv) (t : Nat),
      (pyTruthy env.api_secret && pyTruthy env.api_key && pyTruthy env.cloud_name) = false →
      generate_signature digest env t =
        .err500 "Missing Cloudinary credentials in environment variables.") := by
  constructor
  · intro digest sec key cn t hsec hkey hcn
    simp [generate_signature, pyTruthy, pySorted, insertByKey, keyLe, joinAmp,
      hsec, hkey, hcn]
    exact congrArg digest (String.ext rfl)
  · intro digest env t h
    simp only [generate_signature]
    rw [h]
    rfl

/-- Closed instance of `generate_signature_spec` at timestamp 42. -/
theorem generate_signature_spec_witness :
    generate_signature (fun s => s) ⟨some "SEC", some "KEY", some "CN"⟩ 42 =
      .ok 42 ("folder=uploads&timestamp=" ++ toString 42 ++ "SEC") "KEY" "CN" "uploads" :=
  generate_signature_spec.1 (fun s => s) "SEC" "KEY" "CN" 42
    (by decide) (by decide) (by decide)

/-- Claim C10: a style string outside the six preset identifiers (and not the
custom style with a supplied description) is silently enhanced with the
creative preset template, and `generate_caption` never rejects an
unrecognized style as invalid input. -/
theorem unknown_style_defaults_to_creative (style : String) :
    (style ∉ ["creative", "funny", "poetic", "marketing", "social", "artistic"] →
      ∀ (basic : String) (cd : Option String),
        (style == "custom" && pyTruthy cd) = false →
        buildPrompt basic style cd = presetPrompt (lookupStylePrompt "creative") basic) ∧
    (style ∉ ["creative", "funny", "poetic", "marketing", "social", "artistic", "custom"] →
      ∀ (req : CaptionRequest) (uid : String) (c : Collab) (now : Nat)
        (store : List CaptionRecord) (d : String),
        req.style = style →
        (req.image_url == "" || !(pyStartsWith req.image_url "http")) = false →
        (generate_caption req uid c now store).result ≠ .error (.invalidInput d)) := by
  constructor
  · intro h basic cd hcb
    simp only [List.mem_cons, List.not_mem_nil, or_false, not_or] at h
    obtain ⟨h1, h2, h3, h4, h5, h6⟩ := h
    have hfind : style_prompts.find? (fun p => p.1 == style) = none := by
      rw [List.find?_eq_none]
      intro x hx
      simp only [style_prompts, List.mem_cons, List.not_mem_nil, or_false] at hx
      rcases hx with rfl | rfl | rfl | rfl | rfl | rfl
      · simp [Ne.symm h1]
      · simp [Ne.symm h2]
      · simp [Ne.symm h3]
      · simp [Ne.symm h4]
      · simp [Ne.symm h5]
      · simp [Ne.symm h6]
    have hlk : lookupStylePrompt style =
        "Transform this basic image description into a creative, engaging caption that tells a story or evokes emotion:" := by
      simp only [lookupStylePrompt, hfind]
    have hlk2 : lookupStylePrompt "creative" =
        "Transform this basic image description into a creative, engaging caption that tells a story or evokes emotion:" := by
      rfl
    simp [buildPrompt, hcb, hlk, hlk2]
  · intro h req uid c now store d hstyle hurl
    simp only [List.mem_cons, List.not_mem_nil, or_false, not_or] at h
    have hc2 : (req.style == "custom" && blankCustom req.custom_description) = false := by
      have : (req.style == "custom") = false := by
        rw [hstyle]
        simpa using h.2.2.2.2.2.2
      simp [this]
    cases hF : c.fetchOk
    · simp [generate_caption, hurl, hc2, hF]
    · cases hD : c.decodeOk
      · simp [generate_caption, hurl, hc2, hF, hD]
      · cases hi : c.inference
        · simp [generate_caption, hurl, hc2, hF, hD, hi]
        · simp [generate_caption, hurl, hc2, hF, hD, hi]

/-- Closed instance of `unknown_style_defaults_to_creative` at the
unrecognized style `"zany"`. -/
theorem unknown_style_defaults_witness :
    buildPrompt "a cat" "zany" none = presetPrompt (lookupStylePrompt "creative") "a cat" :=
  (unknown_style_defaults_to_creative "zany").1 (by decide) "a cat" none (by decide)

end CaptionGen
